import Mathlib

/-
Shallow embedding of SSHplex's tmux multiplexer manager
(src/sshplex/lib/multiplexer/tmux.py, class TmuxManager).

The external tmux server is modelled as an explicit `Server` state plus a
trace of issued driver commands (`DriverCmd`).  Fallible driver calls
(new_window, split_window, resize_window, select_layout, attached_pane,
new_session) have their outcomes supplied by an explicit plan value, so a
single execution of an embedded operation corresponds to one concrete run
of the Python code against a driver behaving as the plan dictates.
-/

namespace SSHplex

/-- Driver commands and queries issued to the tmux server, in issue order. -/
inductive DriverCmd where
  | hasSession (name : String)
  | getSession (name : String)
  | newSession (name : String)
  | attachedWindow (session : Nat)
  | newWindow (name : String)
  | listPanes (window : Nat)
  | attachedPane (window : Nat)
  | splitWindow (window : Nat) (vertical : Bool)
  | resizeWindow (window : Nat) (height width : Nat)
  | selectLayout (window : Nat) (layout : String)
  | sendKeys (pane : Nat) (text : String)
  | setWindowOption (window : Nat) (key value : String)
  | showWindowOption (window : Nat) (key : String)
  deriving Repr, DecidableEq

/-- Whether a driver command mutates server state (queries do not). -/
def DriverCmd.isMutation : DriverCmd → Bool
  | DriverCmd.hasSession _ => false
  | DriverCmd.getSession _ => false
  | DriverCmd.attachedWindow _ => false
  | DriverCmd.listPanes _ => false
  | DriverCmd.attachedPane _ => false
  | DriverCmd.showWindowOption _ _ => false
  | _ => true

/-- Commands that belong to the pane-acquisition phase of a placement
(session bookkeeping, window creation, splits, resizes) as opposed to the
post-acquisition phase (layout, keystrokes, window options). -/
def DriverCmd.isSetup : DriverCmd → Bool
  | DriverCmd.hasSession _ => true
  | DriverCmd.getSession _ => true
  | DriverCmd.newSession _ => true
  | DriverCmd.attachedWindow _ => true
  | DriverCmd.newWindow _ => true
  | DriverCmd.listPanes _ => true
  | DriverCmd.attachedPane _ => true
  | DriverCmd.splitWindow _ _ => true
  | DriverCmd.resizeWindow _ _ _ => true
  | _ => false

/-- Window handles receiving a set-window-option command in a trace. -/
def optionTargets : List DriverCmd → List Nat
  | [] => []
  | DriverCmd.setWindowOption w _ _ :: rest => w :: optionTargets rest
  | _ :: rest => optionTargets rest

/-- Python-dict lookup on an insertion-ordered association list. -/
def dictGet {α β : Type} [DecidableEq α] : List (α × β) → α → Option β
  | [], _ => none
  | (k', v') :: rest, k => if k' = k then some v' else dictGet rest k

/-- Python-dict update: replace in place if the key exists, else append. -/
def dictSet {α β : Type} [DecidableEq α] : List (α × β) → α → β → List (α × β)
  | [], k, v => [(k, v)]
  | (k', v') :: rest, k, v =>
      if k' = k then (k, v) :: rest else (k', v') :: dictSet rest k v

/-- Outcome of one fallible driver call: a valid handle, a null handle, or
a raised exception. -/
inductive CallRes where
  | ok
  | retNone
  | raised
  deriving Repr, DecidableEq

/-- Abstract state of the external tmux server. -/
structure Server where
  sessions : List (String × Nat) := []
  attachedOf : List (Nat × Nat) := []
  winPanes : List (Nat × Nat) := []
  winSync : List (Nat × Bool) := []
  firstPaneOf : List (Nat × Nat) := []
  fresh : Nat := 0
  deriving Repr, DecidableEq

/-- Server effect of a successful new_session: one session with one
default window holding one default pane. -/
def Server.newSessionEffect (srv : Server) (name : String) : Nat × Server :=
  let s := srv.fresh
  let w := srv.fresh + 1
  let p := srv.fresh + 2
  (s, { srv with
        sessions := dictSet srv.sessions name s
        attachedOf := dictSet srv.attachedOf s w
        winPanes := dictSet srv.winPanes w 1
        winSync := dictSet srv.winSync w false
        firstPaneOf := dictSet srv.firstPaneOf w p
        fresh := srv.fresh + 3 })

/-- Server effect of a successful new_window: a fresh window with one
default pane. -/
def Server.newWindowEffect (srv : Server) : Nat × Server :=
  let w := srv.fresh
  let p := srv.fresh + 1
  (w, { srv with
        winPanes := dictSet srv.winPanes w 1
        winSync := dictSet srv.winSync w false
        firstPaneOf := dictSet srv.firstPaneOf w p
        fresh := srv.fresh + 2 })

/-- Server effect of a successful split_window on window `w`: a fresh pane
and one more live pane in `w`. -/
def Server.splitEffect (srv : Server) (w : Nat) : Nat × Server :=
  let p := srv.fresh
  (p, { srv with
        fresh := srv.fresh + 1
        winPanes := dictSet srv.winPanes w ((dictGet srv.winPanes w).getD 0 + 1) })

/-- Live pane count the server reports for window handle `w`. -/
def winPaneCount (srv : Server) (w : Nat) : Nat :=
  (dictGet srv.winPanes w).getD 0

/-- In-process state of TmuxManager (its mutable fields). -/
structure TmuxState where
  session_name : String
  session : Option Nat := none
  current_window : Option Nat := none
  windows : List (Nat × Nat) := []
  panes : List (String × Nat) := []
  max_panes_per_window : Nat := 5
  current_window_pane_count : Nat := 0
  deriving Repr, DecidableEq

/-- Result of one embedded manager operation: the returned boolean, the
updated manager state, the updated server, and the issued driver trace. -/
structure StepResult where
  ok : Bool
  st : TmuxState
  srv : Server
  trace : List DriverCmd
  deriving Repr, DecidableEq

/-- Planned driver outcome for create_session's new_session call. -/
structure SessionPlan where
  newSessionOk : Bool := true
  deriving Repr, DecidableEq

/-- Tail of create_session once a session object `s` is in hand: read the
attached window and, when present, record it as window 0 and reset the
pane counter (tmux.py lines 47-56). -/
def create_session_finish (st : TmuxState) (srv : Server) (s : Nat)
    (tr : List DriverCmd) : StepResult :=
  let aw := dictGet srv.attachedOf s
  let st1 := { st with session := some s, current_window := aw }
  match aw with
  | some w =>
      ⟨true,
       { st1 with windows := dictSet st1.windows 0 w, current_window_pane_count := 0 },
       srv, tr ++ [DriverCmd.attachedWindow s]⟩
  | none => ⟨true, st1, srv, tr ++ [DriverCmd.attachedWindow s]⟩

/-- TmuxManager.create_session (tmux.py lines 30-60): attach to an
existing same-named session, otherwise create a fresh one; a raised
new_session is caught and yields False with no state change. -/
def create_session (st : TmuxState) (srv : Server) (plan : SessionPlan) : StepResult :=
  match dictGet srv.sessions st.session_name with
  | some s =>
      create_session_finish st srv s
        [DriverCmd.hasSession st.session_name, DriverCmd.getSession st.session_name]
  | none =>
      if plan.newSessionOk then
        let ns := srv.newSessionEffect st.session_name
        create_session_finish st ns.2 ns.1
          [DriverCmd.hasSession st.session_name, DriverCmd.newSession st.session_name]
      else
        ⟨false, st, srv,
         [DriverCmd.hasSession st.session_name, DriverCmd.newSession st.session_name]⟩

/-- Planned driver outcomes for the fallible calls create_pane can make,
in program order. -/
structure PanePlan where
  sessionPlan : SessionPlan := {}
  newWindow1 : CallRes := CallRes.ok
  attachedPaneOk : Bool := true
  split1 : CallRes := CallRes.ok
  resizeOk : Bool := true
  split2 : CallRes := CallRes.ok
  newWindow2 : CallRes := CallRes.ok
  split3 : CallRes := CallRes.ok
  layoutOk : Bool := true
  deriving Repr, DecidableEq

/-- Result of create_pane's ensure_window_available helper; `raised` marks
a driver exception propagating out of it. -/
structure EnsureResult where
  raised : Bool
  st : TmuxState
  srv : Server
  trace : List DriverCmd
  deriving Repr, DecidableEq

/-- ensure_window_available (tmux.py lines 73-87): only when the tracked
pane count has reached capacity, try to open a new window named after the
next window index; on a null handle fall back to the current window, on a
raised error propagate the exception. -/
def ensure_window_available (st : TmuxState) (srv : Server) (nw : CallRes) : EnsureResult :=
  if st.max_panes_per_window ≤ st.current_window_pane_count then
    match st.session with
    | some _ =>
        let wname := ("sshplex-") ++ toString st.windows.length
        match nw with
        | CallRes.ok =>
            let ws := srv.newWindowEffect
            ⟨false,
             { st with current_window := some ws.1,
                       windows := dictSet st.windows st.windows.length ws.1,
                       current_window_pane_count := 0 },
             ws.2, [DriverCmd.newWindow wname]⟩
        | CallRes.retNone => ⟨false, st, srv, [DriverCmd.newWindow wname]⟩
        | CallRes.raised => ⟨true, st, srv, [DriverCmd.newWindow wname]⟩
    | none => ⟨false, st, srv, []⟩
  else ⟨false, st, srv, []⟩

/-- Outcome of the pane-acquisition chain of create_pane: the obtained
pane handle if any (`none` covers both a raised exception and a null pane,
each of which makes create_pane return False). -/
structure SplitOut where
  pane : Option Nat
  st : TmuxState
  srv : Server
  trace : List DriverCmd
  deriving Repr, DecidableEq

/-- Second fallback of create_pane (tmux.py lines 113-118): re-run
ensure_window_available and retry the split with vertical orientation. -/
def fallback_new_window (st : TmuxState) (srv : Server) (plan : PanePlan)
    (tr : List DriverCmd) : SplitOut :=
  let e := ensure_window_available st srv plan.newWindow2
  if e.raised then ⟨none, e.st, e.srv, tr ++ e.trace⟩
  else
    match e.st.current_window with
    | none => ⟨none, e.st, e.srv, tr ++ e.trace⟩
    | some w2 =>
        match plan.split3 with
        | CallRes.ok =>
            let ps := e.srv.splitEffect w2
            ⟨some ps.1, e.st, ps.2, tr ++ e.trace ++ [DriverCmd.splitWindow w2 true]⟩
        | CallRes.retNone =>
            ⟨none, e.st, e.srv, tr ++ e.trace ++ [DriverCmd.splitWindow w2 true]⟩
        | CallRes.raised =>
            ⟨none, e.st, e.srv, tr ++ e.trace ++ [DriverCmd.splitWindow w2 true]⟩

/-- Pane acquisition of create_pane (tmux.py lines 96-121): first pane in
a window reuses the attached pane; later panes split with orientation by
parity of the tracked count, with the resize retry and forced-new-window
fallbacks on raised splits. -/
def acquire_pane (st : TmuxState) (srv : Server) (plan : PanePlan) (w : Nat) : SplitOut :=
  if st.current_window_pane_count == 0 then
    let pane := if plan.attachedPaneOk then dictGet srv.firstPaneOf w else none
    ⟨pane, st, srv, [DriverCmd.attachedPane w]⟩
  else
    let v1 : Bool := st.current_window_pane_count % 2 == 0
    match plan.split1 with
    | CallRes.ok =>
        let ps := srv.splitEffect w
        ⟨some ps.1, st, ps.2, [DriverCmd.splitWindow w v1]⟩
    | CallRes.retNone => ⟨none, st, srv, [DriverCmd.splitWindow w v1]⟩
    | CallRes.raised =>
        let tr1 := [DriverCmd.splitWindow w v1, DriverCmd.resizeWindow w 80 200]
        if plan.resizeOk then
          match plan.split2 with
          | CallRes.ok =>
              let ps := srv.splitEffect w
              ⟨some ps.1, st, ps.2, tr1 ++ [DriverCmd.splitWindow w v1]⟩
          | CallRes.retNone => ⟨none, st, srv, tr1 ++ [DriverCmd.splitWindow w v1]⟩
          | CallRes.raised =>
              fallback_new_window st srv plan (tr1 ++ [DriverCmd.splitWindow w v1])
        else fallback_new_window st srv plan tr1

/-- TmuxManager.set_pane_title (tmux.py lines 179-193): send a printf
escape sequence to the pane registered for `hostname`. -/
def paneTitleText (title : String) : String :=
  ("printf \"\\033]2;") ++ title ++ ("\\033\\\\\"")

/-- Command-dispatch suffix of a successful placement's trace: one
keystroke command when a command string was supplied, nothing otherwise. -/
def cmdTrace (p : Nat) (c : Option String) : List DriverCmd :=
  match c with
  | some s => [DriverCmd.sendKeys p s]
  | none => []

/-- Embedded set_pane_title: the boolean result and the issued trace. -/
def set_pane_title (st : TmuxState) (hostname title : String) : Bool × List DriverCmd :=
  match dictGet st.panes hostname with
  | none => (false, [])
  | some p => (true, [DriverCmd.sendKeys p (paneTitleText title)])

/-- TmuxManager.send_command (tmux.py lines 195-209): send a command
string to the pane registered for `hostname`. -/
def send_command (st : TmuxState) (hostname command : String) : Bool × List DriverCmd :=
  match dictGet st.panes hostname with
  | none => (false, [])
  | some p => (true, [DriverCmd.sendKeys p command])

/-- Tail of create_pane after pane acquisition (tmux.py lines 120-139):
null pane check, select_layout("tiled"), register the pane, bump the
counter, set the title, optionally dispatch the command. -/
def finish_pane (sp : SplitOut) (plan : PanePlan) (hostname : String)
    (command : Option String) : StepResult :=
  match sp.pane with
  | none => ⟨false, sp.st, sp.srv, sp.trace⟩
  | some p =>
      match sp.st.current_window with
      | none => ⟨false, sp.st, sp.srv, sp.trace⟩
      | some wL =>
          if plan.layoutOk then
            let st2 := { sp.st with
              panes := dictSet sp.st.panes hostname p,
              current_window_pane_count := sp.st.current_window_pane_count + 1 }
            ⟨true, st2, sp.srv,
             sp.trace ++ [DriverCmd.selectLayout wL ("tiled")]
                      ++ (set_pane_title st2 hostname hostname).2
                      ++ (match command with
                          | some cmd => (send_command st2 hostname cmd).2
                          | none => [])⟩
          else ⟨false, sp.st, sp.srv, sp.trace ++ [DriverCmd.selectLayout wL ("tiled")]⟩

/-- Body of create_pane once a session is known to exist (tmux.py lines
89-139): capacity check, pane acquisition, then the finishing steps. -/
def pane_phase (st : TmuxState) (srv : Server) (plan : PanePlan) (hostname : String)
    (command : Option String) : StepResult :=
  let e := ensure_window_available st srv plan.newWindow1
  if e.raised then ⟨false, e.st, e.srv, e.trace⟩
  else
    match e.st.current_window with
    | none => ⟨false, e.st, e.srv, e.trace⟩
    | some w =>
        let r := finish_pane (acquire_pane e.st e.srv plan w) plan hostname command
        ⟨r.ok, r.st, r.srv, e.trace ++ r.trace⟩

/-- Glue for create_pane's session bootstrap (tmux.py lines 66-68): if the
bootstrap step failed, return False; otherwise run the placement body. -/
def with_session (init : StepResult) (plan : PanePlan) (hostname : String)
    (command : Option String) : StepResult :=
  if init.ok then
    let r := pane_phase init.st init.srv plan hostname command
    ⟨r.ok, r.st, r.srv, init.trace ++ r.trace⟩
  else ⟨false, init.st, init.srv, init.trace⟩

/-- TmuxManager.create_pane (tmux.py lines 62-143): when no session or no
current window is tracked, first call create_session; then run the
placement body. -/
def create_pane (st0 : TmuxState) (srv0 : Server) (plan : PanePlan) (hostname : String)
    (command : Option String) : StepResult :=
  with_session
    (if st0.session.isNone || st0.current_window.isNone then
      create_session st0 srv0 plan.sessionPlan
     else ⟨true, st0, srv0, []⟩)
    plan hostname command

/-- Planned driver outcomes for create_window. -/
structure WindowPlan where
  newWindow : CallRes := CallRes.ok
  paneFound : Bool := true
  deriving Repr, DecidableEq

/-- TmuxManager.create_window (tmux.py lines 145-177): window-mode
placement; creates one window named after the host, registers only the
pane, and never touches the windows map, the current-window pointer or the
tracked pane count. -/
def create_window (st : TmuxState) (srv : Server) (plan : WindowPlan)
    (hostname : String) (command : Option String) : StepResult :=
  match st.session with
  | none => ⟨false, st, srv, []⟩
  | some _ =>
      match plan.newWindow with
      | CallRes.retNone => ⟨false, st, srv, [DriverCmd.newWindow hostname]⟩
      | CallRes.raised => ⟨false, st, srv, [DriverCmd.newWindow hostname]⟩
      | CallRes.ok =>
          let ws := srv.newWindowEffect
          if plan.paneFound then
            let p := ws.1 + 1
            ⟨true, { st with panes := dictSet st.panes hostname p }, ws.2,
             [DriverCmd.newWindow hostname, DriverCmd.listPanes ws.1]
               ++ (match command with
                   | some c => [DriverCmd.sendKeys p c]
                   | none => [])⟩
          else ⟨false, st, ws.2, [DriverCmd.newWindow hostname, DriverCmd.listPanes ws.1]⟩

/-- Loop body of enable_broadcast over the registered windows map: only
windows with more than one live pane receive the option. -/
def enableLoop (srv : Server) : List (Nat × Nat) → Bool × Server × List DriverCmd
  | [] => (false, srv, [])
  | (_, w) :: rest =>
      if 1 < winPaneCount srv w then
        let srv' := { srv with winSync := dictSet srv.winSync w true }
        let r := enableLoop srv' rest
        (true, r.2.1, DriverCmd.setWindowOption w ("synchronize-panes") ("on") :: r.2.2)
      else enableLoop srv rest

/-- TmuxManager.enable_broadcast (tmux.py lines 325-345). -/
def enable_broadcast (st : TmuxState) (srv : Server) : Bool × Server × List DriverCmd :=
  match st.session with
  | none => (false, srv, [])
  | some _ => enableLoop srv st.windows

/-- Loop body of disable_broadcast: every registered window receives the
option, with no pane-count qualification. -/
def disableLoop (srv : Server) : List (Nat × Nat) → Bool × Server × List DriverCmd
  | [] => (false, srv, [])
  | (_, w) :: rest =>
      let srv' := { srv with winSync := dictSet srv.winSync w false }
      let r := disableLoop srv' rest
      (true, r.2.1, DriverCmd.setWindowOption w ("synchronize-panes") ("off") :: r.2.2)

/-- TmuxManager.disable_broadcast (tmux.py lines 347-367). -/
def disable_broadcast (st : TmuxState) (srv : Server) : Bool × Server × List DriverCmd :=
  match st.session with
  | none => (false, srv, [])
  | some _ => disableLoop srv st.windows

/-- First window handle, in registered iteration order, whose live pane
count exceeds one (the window toggle_broadcast samples). -/
def firstMultiPane (srv : Server) : List (Nat × Nat) → Option Nat
  | [] => none
  | (_, w) :: rest => if 1 < winPaneCount srv w then some w else firstMultiPane srv rest

/-- TmuxManager.toggle_broadcast (tmux.py lines 369-394): sample the
synchronize-panes option of the first multi-pane window, then disable if
it was on, else enable. -/
def toggle_broadcast (st : TmuxState) (srv : Server) : Bool × Server × List DriverCmd :=
  match st.session with
  | none => (false, srv, [])
  | some _ =>
      match firstMultiPane srv st.windows with
      | none => enable_broadcast st srv
      | some w =>
          let state := (dictGet srv.winSync w).getD false
          let r := if state then disable_broadcast st srv else enable_broadcast st srv
          (r.1, r.2.1, DriverCmd.showWindowOption w ("synchronize-panes") :: r.2.2)

/-- Empty tmux server. -/
def srv0 : Server := ⟨[], [], [], [], [], 0⟩

/-- Server owning session "s" (handle 0) whose attached window 1 has two
live panes, default pane 10; fresh handles start at 100. -/
def srvBase : Server := ⟨[("s", 0)], [(0, 1)], [(1, 2)], [(1, false)], [(1, 10)], 100⟩

/-- Server like srvBase but window 1 has a single live pane. -/
def srvSingle : Server := ⟨[("s", 0)], [(0, 1)], [(1, 1)], [(1, false)], [(1, 10)], 100⟩

/-- Server with two multi-pane windows in mixed broadcast states: window 1
(2 panes, sync on) and window 2 (3 panes, sync off). -/
def srvMixed : Server :=
  ⟨[("s", 0)], [(0, 1)], [(1, 2), (2, 3)], [(1, true), (2, false)], [(1, 10), (2, 20)], 100⟩

/-- Manager state before any session was created. -/
def stNoSession : TmuxState := ⟨("s"), none, none, [], [], 5, 0⟩

/-- Manager state with one tracked window (index 0, handle 1) holding one
placed pane, capacity 5. -/
def stOneWin : TmuxState := ⟨("s"), some 0, some 1, [(0, 1)], [], 5, 1⟩

/-- Manager state whose single tracked window is exactly at capacity 5. -/
def stFullWin : TmuxState := ⟨("s"), some 0, some 1, [(0, 1)], [], 5, 5⟩

/-- Manager state with capacity 1, current window at capacity. -/
def stTightWin : TmuxState := ⟨("s"), some 0, some 1, [(0, 1)], [], 1, 1⟩

/-- Manager state with two registered windows (handles 1 and 2). -/
def stTwoWin : TmuxState := ⟨("s"), some 0, some 1, [(0, 1), (1, 2)], [], 5, 2⟩

/-- Plan where every driver call succeeds. -/
def planOk : PanePlan := {}

/-- Plan where the new_window call returns a null handle. -/
def planRetNone : PanePlan := { newWindow1 := CallRes.retNone }

/-- Plan where the new_window call raises a driver error. -/
def planRaise : PanePlan := { newWindow1 := CallRes.raised }

/-- Plan where the first split and the resize-retry split both raise and
the final fallback split succeeds. -/
def planDoubleFail : PanePlan := { split1 := CallRes.raised, split2 := CallRes.raised }

/-- Plan where session auto-creation fails (new_session raises). -/
def planNoSession : PanePlan := { sessionPlan := ⟨false⟩ }

/-- Window-mode plan where every driver call succeeds. -/
def wplanOk : WindowPlan := {}

lemma dictGet_dictSet_self {α β : Type} [DecidableEq α] (l : List (α × β)) (k : α) (v : β) :
    dictGet (dictSet l k v) k = some v := by
  induction l with
  | nil => simp [dictGet, dictSet]
  | cons hd tl ih =>
      rcases hd with ⟨k', v'⟩
      by_cases h : k' = k
      · simp [dictGet, dictSet, h]
      · simp [dictGet, dictSet, h, ih]

lemma ensure_of_lt (st : TmuxState) (srv : Server) (nw : CallRes)
    (h : st.current_window_pane_count < st.max_panes_per_window) :
    ensure_window_available st srv nw = ⟨false, st, srv, []⟩ := by
  unfold ensure_window_available
  rw [if_neg (Nat.not_le.mpr h)]

lemma ensure_of_cap_ok (st : TmuxState) (srv : Server) (sid : Nat)
    (hs : st.session = some sid)
    (hcap : st.max_panes_per_window ≤ st.current_window_pane_count) :
    ensure_window_available st srv CallRes.ok =
      ⟨false,
       { st with current_window := some srv.fresh,
                 windows := dictSet st.windows st.windows.length srv.fresh,
                 current_window_pane_count := 0 },
       (srv.newWindowEffect).2,
       [DriverCmd.newWindow (("sshplex-") ++ toString st.windows.length)]⟩ := by
  simp [ensure_window_available, hs, hcap, Server.newWindowEffect]

lemma ensure_of_cap_raised (st : TmuxState) (srv : Server) (sid : Nat)
    (hs : st.session = some sid)
    (hcap : st.max_panes_per_window ≤ st.current_window_pane_count) :
    ensure_window_available st srv CallRes.raised =
      ⟨true, st, srv, [DriverCmd.newWindow (("sshplex-") ++ toString st.windows.length)]⟩ := by
  simp [ensure_window_available, hs, hcap]

lemma ensure_window_some (st : TmuxState) (srv : Server) (nw : CallRes) (w : Nat)
    (hw : st.current_window = some w) :
    ∃ w1, (ensure_window_available st srv nw).st.current_window = some w1 := by
  by_cases hcap : st.max_panes_per_window ≤ st.current_window_pane_count
  · rcases hs : st.session with _ | sid
    · exact ⟨w, by simp [ensure_window_available, hcap, hs, hw]⟩
    · cases nw
      · exact ⟨srv.fresh, by simp [ensure_window_available, hcap, hs, Server.newWindowEffect]⟩
      · exact ⟨w, by simp [ensure_window_available, hcap, hs, hw]⟩
      · exact ⟨w, by simp [ensure_window_available, hcap, hs, hw]⟩
  · exact ⟨w, by simp [ensure_window_available, hcap, hw]⟩

lemma fallback_st_of_lt (st : TmuxState) (srv : Server) (plan : PanePlan)
    (tr : List DriverCmd)
    (h : st.current_window_pane_count < st.max_panes_per_window) :
    (fallback_new_window st srv plan tr).st = st := by
  unfold fallback_new_window
  rw [ensure_of_lt st srv plan.newWindow2 h]
  rcases hw : st.current_window with _ | w2
  · simp [hw]
  · cases plan.split3 <;> simp [hw]

lemma acquire_st_of_lt (st : TmuxState) (srv : Server) (plan : PanePlan) (w : Nat)
    (h : st.current_window_pane_count < st.max_panes_per_window) :
    (acquire_pane st srv plan w).st = st := by
  have hf : ∀ tr, (fallback_new_window st srv plan tr).st = st :=
    fun tr => fallback_st_of_lt st srv plan tr h
  cases hb : (st.current_window_pane_count == 0)
  · cases hs1 : plan.split1 <;> cases hrz : plan.resizeOk <;> cases hs2 : plan.split2 <;>
      simp [acquire_pane, hb, hs1, hrz, hs2, hf]
  · simp [acquire_pane, hb]

lemma finish_count (sp : SplitOut) (plan : PanePlan) (h : String) (c : Option String) :
    ((finish_pane sp plan h c).ok = true →
      (finish_pane sp plan h c).st.current_window_pane_count =
          sp.st.current_window_pane_count + 1 ∧
      (finish_pane sp plan h c).st.max_panes_per_window = sp.st.max_panes_per_window ∧
      (finish_pane sp plan h c).st.current_window = sp.st.current_window) ∧
    ((finish_pane sp plan h c).ok = false → (finish_pane sp plan h c).st = sp.st) := by
  unfold finish_pane
  rcases hp : sp.pane with _ | p
  · simp
  · rcases hw : sp.st.current_window with _ | wL
    · simp
    · cases hl : plan.layoutOk <;> simp [hl, hw]

lemma pane_phase_char (st : TmuxState) (srv : Server) (plan : PanePlan)
    (h : String) (c : Option String) (w : Nat)
    (he : (ensure_window_available st srv plan.newWindow1).raised = false)
    (hw : (ensure_window_available st srv plan.newWindow1).st.current_window = some w) :
    pane_phase st srv plan h c =
      ⟨(finish_pane (acquire_pane (ensure_window_available st srv plan.newWindow1).st
          (ensure_window_available st srv plan.newWindow1).srv plan w) plan h c).ok,
       (finish_pane (acquire_pane (ensure_window_available st srv plan.newWindow1).st
          (ensure_window_available st srv plan.newWindow1).srv plan w) plan h c).st,
       (finish_pane (acquire_pane (ensure_window_available st srv plan.newWindow1).st
          (ensure_window_available st srv plan.newWindow1).srv plan w) plan h c).srv,
       (ensure_window_available st srv plan.newWindow1).trace ++
         (finish_pane (acquire_pane (ensure_window_available st srv plan.newWindow1).st
            (ensure_window_available st srv plan.newWindow1).srv plan w) plan h c).trace⟩ := by
  simp [pane_phase, he, hw]

lemma pane_phase_raised (st : TmuxState) (srv : Server) (plan : PanePlan)
    (h : String) (c : Option String)
    (he : (ensure_window_available st srv plan.newWindow1).raised = true) :
    pane_phase st srv plan h c =
      ⟨false, (ensure_window_available st srv plan.newWindow1).st,
       (ensure_window_available st srv plan.newWindow1).srv,
       (ensure_window_available st srv plan.newWindow1).trace⟩ := by
  simp [pane_phase, he]

lemma create_pane_of_session (st : TmuxState) (srv : Server) (plan : PanePlan)
    (h : String) (c : Option String) (sid w : Nat)
    (hs : st.session = some sid) (hw : st.current_window = some w) :
    create_pane st srv plan h c = pane_phase st srv plan h c := by
  rcases hr : pane_phase st srv plan h c with ⟨rok, rst, rsrv, rtr⟩
  simp [create_pane, with_session, hs, hw, hr]

lemma phase_core (stE : TmuxState) (srvE : Server) (plan : PanePlan) (w : Nat)
    (h : String) (c : Option String)
    (hlt : stE.current_window_pane_count < stE.max_panes_per_window) :
    ((finish_pane (acquire_pane stE srvE plan w) plan h c).ok = true →
      (finish_pane (acquire_pane stE srvE plan w) plan h c).st.current_window_pane_count =
        stE.current_window_pane_count + 1 ∧
      (finish_pane (acquire_pane stE srvE plan w) plan h c).st.current_window =
        stE.current_window ∧
      (finish_pane (acquire_pane stE srvE plan w) plan h c).st.max_panes_per_window =
        stE.max_panes_per_window) ∧
    ((finish_pane (acquire_pane stE srvE plan w) plan h c).ok = false →
      (finish_pane (acquire_pane stE srvE plan w) plan h c).st = stE) := by
  have ha := acquire_st_of_lt stE srvE plan w hlt
  obtain ⟨hfT, hfF⟩ := finish_count (acquire_pane stE srvE plan w) plan h c
  rw [ha] at hfT hfF
  exact ⟨fun hok => ⟨(hfT hok).1, (hfT hok).2.2, (hfT hok).2.1⟩, hfF⟩

/-- Counterexample to C1 as stated: create_pane called with no tracked
session does not fail — it creates the session itself (the trace contains
the new-session command) and completes the placement successfully,
registering the pane. -/
theorem c1_claim_counterexample :
    stNoSession.session = none ∧
    (create_pane stNoSession srv0 planOk ("h") none).ok = true ∧
    (create_pane stNoSession srv0 planOk ("h") none).trace =
      [DriverCmd.hasSession ("s"), DriverCmd.newSession ("s"), DriverCmd.attachedWindow 0,
       DriverCmd.attachedPane 1, DriverCmd.selectLayout 1 ("tiled"),
       DriverCmd.sendKeys 2 (paneTitleText ("h"))] ∧
    dictGet (create_pane stNoSession srv0 planOk ("h") none).st.panes ("h") = some 2 :=
  ⟨rfl, rfl, rfl, rfl⟩

/-- C1 (amended): when no session is tracked, create_pane first attempts
to create the session itself; the placement fails, returning false with no
placement command issued beyond the session-creation attempt, exactly when
that auto-creation fails. -/
theorem c1_no_session_autocreate (st : TmuxState) (srv : Server) (plan : PanePlan)
    (h : String) (c : Option String)
    (hs : st.session = none)
    (hfail : (create_session st srv plan.sessionPlan).ok = false) :
    (create_pane st srv plan h c).ok = false ∧
    (create_pane st srv plan h c).st = (create_session st srv plan.sessionPlan).st ∧
    (create_pane st srv plan h c).trace = (create_session st srv plan.sessionPlan).trace := by
  have hcond : st.session.isNone = true := by rw [hs]; rfl
  simp [create_pane, with_session, hcond, hfail]

/-- Witness for the amended C1 at a concrete input: the driver refuses to
create the session, so create_pane returns false having issued only the
session-creation attempt. -/
theorem c1_witness :
    stNoSession.session = none ∧
    (create_session stNoSession srv0 planNoSession.sessionPlan).ok = false ∧
    ((create_pane stNoSession srv0 planNoSession ("h") none).ok = false ∧
     (create_pane stNoSession srv0 planNoSession ("h") none).st =
       (create_session stNoSession srv0 planNoSession.sessionPlan).st ∧
     (create_pane stNoSession srv0 planNoSession ("h") none).trace =
       (create_session stNoSession srv0 planNoSession.sessionPlan).trace) :=
  ⟨rfl, rfl, c1_no_session_autocreate stNoSession srv0 planNoSession ("h") none rfl rfl⟩

/-- C2: at the failing input (window below capacity, first split raises,
resize-retry split raises), the second fallback does NOT force a new
window: no new-window command appears in the trace, the windows map and
the current-window pointer are unchanged, and the retry split is issued
against the same window (handle 1) with vertical orientation, where the
pane is placed. The code's own log message ("Creating new window due to
insufficient space") promises otherwise. -/
theorem c2_fallback_same_window :
    (create_pane stOneWin srvBase planDoubleFail ("h3") none).ok = true ∧
    (create_pane stOneWin srvBase planDoubleFail ("h3") none).st.current_window = some 1 ∧
    (create_pane stOneWin srvBase planDoubleFail ("h3") none).st.windows = [(0, 1)] ∧
    (create_pane stOneWin srvBase planDoubleFail ("h3") none).trace =
      [DriverCmd.splitWindow 1 false, DriverCmd.resizeWindow 1 80 200,
       DriverCmd.splitWindow 1 false, DriverCmd.splitWindow 1 true,
       DriverCmd.selectLayout 1 ("tiled"), DriverCmd.sendKeys 100 (paneTitleText ("h3"))] :=
  ⟨rfl, rfl, rfl, rfl⟩

/-- Counterexample to C3 as stated: with the current window exactly at
capacity (5/5) and the new_window call returning a null handle, the
placement does not hard-fail — the pane is split into the full current
window, whose tracked count rises to 6. -/
theorem c3_claim_counterexample :
    stFullWin.current_window_pane_count = stFullWin.max_panes_per_window ∧
    (create_pane stFullWin srvBase planRetNone ("h4") none).ok = true ∧
    (create_pane stFullWin srvBase planRetNone ("h4") none).st.current_window = some 1 ∧
    (create_pane stFullWin srvBase planRetNone ("h4") none).st.current_window_pane_count = 6 ∧
    dictGet (create_pane stFullWin srvBase planRetNone ("h4") none).st.panes ("h4") = some 100 ∧
    (create_pane stFullWin srvBase planRetNone ("h4") none).trace =
      [DriverCmd.newWindow ("sshplex-1"), DriverCmd.splitWindow 1 false,
       DriverCmd.selectLayout 1 ("tiled"), DriverCmd.sendKeys 100 (paneTitleText ("h4"))] :=
  ⟨rfl, rfl, rfl, rfl, rfl, rfl⟩

/-- C3 (amended): when the active window is at capacity and the new_window
call raises a driver error, the placement is a hard failure: create_pane
returns false, no pane is registered, the tracked count is unchanged, and
the only command issued is the failed new-window attempt. (If new_window
instead returns a null handle the code falls back to the full current
window; see the counterexample.) -/
theorem c3_raised_hard_failure (st : TmuxState) (srv : Server) (plan : PanePlan)
    (h : String) (c : Option String) (sid w : Nat)
    (hs : st.session = some sid) (hw : st.current_window = some w)
    (hcap : st.max_panes_per_window ≤ st.current_window_pane_count)
    (hnw : plan.newWindow1 = CallRes.raised) :
    (create_pane st srv plan h c).ok = false ∧
    (create_pane st srv plan h c).st.panes = st.panes ∧
    (create_pane st srv plan h c).st.current_window_pane_count =
      st.current_window_pane_count ∧
    (create_pane st srv plan h c).trace =
      [DriverCmd.newWindow (("sshplex-") ++ toString st.windows.length)] := by
  rw [create_pane_of_session st srv plan h c sid w hs hw]
  have he := ensure_of_cap_raised st srv sid hs hcap
  rw [← hnw] at he
  rw [pane_phase_raised st srv plan h c (by rw [he])]
  rw [he]
  exact ⟨rfl, rfl, rfl, rfl⟩

/-- Witness for the amended C3 at a concrete input: full window, raised
new_window, hard failure with nothing placed. -/
theorem c3_witness :
    (create_pane stFullWin srvBase planRaise ("h") none).ok = false ∧
    (create_pane stFullWin srvBase planRaise ("h") none).st.panes = stFullWin.panes ∧
    (create_pane stFullWin srvBase planRaise ("h") none).st.current_window_pane_count =
      stFullWin.current_window_pane_count ∧
    (create_pane stFullWin srvBase planRaise ("h") none).trace =
      [DriverCmd.newWindow (("sshplex-") ++ toString stFullWin.windows.length)] :=
  c3_raised_hard_failure stFullWin srvBase planRaise ("h") none 0 1 rfl rfl (by decide) rfl

/-- Counterexample to C4 as stated: with capacity 1 and a window already
holding 1 pane, a placement during which new_window returns a null handle
completes successfully and leaves the tracked pane count at 2, exceeding
the capacity after the placement has completed. -/
theorem c4_claim_counterexample :
    stTightWin.max_panes_per_window = 1 ∧
    stTightWin.current_window_pane_count = 1 ∧
    (create_pane stTightWin srvBase planRetNone ("h2") none).ok = true ∧
    (create_pane stTightWin srvBase planRetNone ("h2") none).st.current_window_pane_count = 2 :=
  ⟨rfl, rfl, rfl, rfl⟩

/-- C4 (amended): provided every new-window driver call returns a valid
window (never a null handle), the tracked pane count never exceeds the
capacity after a placement; a successful placement increments it by
exactly one (from 0 when the window was at capacity, since a new window
was then opened and made current — witnessed by the new-window command in
the trace and the fresh current-window handle). -/
theorem c4_capacity_invariant (st : TmuxState) (srv : Server) (plan : PanePlan)
    (h : String) (c : Option String) (sid w : Nat)
    (hs : st.session = some sid) (hw : st.current_window = some w)
    (hinv : st.current_window_pane_count ≤ st.max_panes_per_window)
    (hpos : 1 ≤ st.max_panes_per_window)
    (hnw : plan.newWindow1 ≠ CallRes.retNone) :
    (create_pane st srv plan h c).st.current_window_pane_count ≤
      st.max_panes_per_window ∧
    ((create_pane st srv plan h c).ok = true →
      (create_pane st srv plan h c).st.current_window_pane_count =
        (if st.max_panes_per_window ≤ st.current_window_pane_count then 0
         else st.current_window_pane_count) + 1) ∧
    (st.max_panes_per_window ≤ st.current_window_pane_count →
      plan.newWindow1 = CallRes.ok →
      DriverCmd.newWindow (("sshplex-") ++ toString st.windows.length)
        ∈ (create_pane st srv plan h c).trace ∧
      (create_pane st srv plan h c).st.current_window = some srv.fresh) := by
  rw [create_pane_of_session st srv plan h c sid w hs hw]
  by_cases hcap : st.max_panes_per_window ≤ st.current_window_pane_count
  · cases hnw1 : plan.newWindow1
    · -- new_window succeeds: fresh current window, count reset to 0
      have he := ensure_of_cap_ok st srv sid hs hcap
      rw [← hnw1] at he
      have hr : (ensure_window_available st srv plan.newWindow1).raised = false := by
        rw [he]
      have hwN : (ensure_window_available st srv plan.newWindow1).st.current_window =
          some srv.fresh := by rw [he]
      have hcnt : (ensure_window_available st srv
          plan.newWindow1).st.current_window_pane_count = 0 := by rw [he]
      have hmax : (ensure_window_available st srv
          plan.newWindow1).st.max_panes_per_window = st.max_panes_per_window := by rw [he]
      have htr : (ensure_window_available st srv plan.newWindow1).trace =
          [DriverCmd.newWindow (("sshplex-") ++ toString st.windows.length)] := by rw [he]
      rw [pane_phase_char st srv plan h c srv.fresh hr hwN]
      obtain ⟨hfT, hfF⟩ := phase_core (ensure_window_available st srv plan.newWindow1).st
        (ensure_window_available st srv plan.newWindow1).srv plan srv.fresh h c
        (by rw [hcnt, hmax]; exact hpos)
      refine ⟨?_, ?_, ?_⟩
      · show (finish_pane (acquire_pane (ensure_window_available st srv plan.newWindow1).st
            (ensure_window_available st srv plan.newWindow1).srv plan srv.fresh) plan
              h c).st.current_window_pane_count ≤ st.max_panes_per_window
        cases hok : (finish_pane (acquire_pane
            (ensure_window_available st srv plan.newWindow1).st
            (ensure_window_available st srv plan.newWindow1).srv plan srv.fresh) plan h c).ok
        · rw [hfF hok, hcnt]
          exact Nat.zero_le _
        · rw [(hfT hok).1, hcnt]
          exact hpos
      · intro hok
        show (finish_pane (acquire_pane (ensure_window_available st srv plan.newWindow1).st
            (ensure_window_available st srv plan.newWindow1).srv plan srv.fresh) plan
              h c).st.current_window_pane_count =
          (if st.max_panes_per_window ≤ st.current_window_pane_count then 0
           else st.current_window_pane_count) + 1
        rw [(hfT hok).1, hcnt, if_pos hcap]
      · intro _ _
        constructor
        · show DriverCmd.newWindow (("sshplex-") ++ toString st.windows.length) ∈
            (ensure_window_available st srv plan.newWindow1).trace ++
              (finish_pane (acquire_pane (ensure_window_available st srv plan.newWindow1).st
                (ensure_window_available st srv plan.newWindow1).srv plan srv.fresh)
                  plan h c).trace
          rw [htr]
          exact List.mem_append_left _ (List.mem_singleton.mpr rfl)
        · show (finish_pane (acquire_pane (ensure_window_available st srv plan.newWindow1).st
              (ensure_window_available st srv plan.newWindow1).srv plan srv.fresh) plan
                h c).st.current_window = some srv.fresh
          cases hok : (finish_pane (acquire_pane
              (ensure_window_available st srv plan.newWindow1).st
              (ensure_window_available st srv plan.newWindow1).srv plan srv.fresh) plan h c).ok
          · rw [hfF hok, hwN]
          · rw [(hfT hok).2.1, hwN]
    · exact absurd hnw1 hnw
    · -- new_window raises: create_pane fails with state unchanged
      have he := ensure_of_cap_raised st srv sid hs hcap
      rw [← hnw1] at he
      rw [pane_phase_raised st srv plan h c (by rw [he])]
      rw [he]
      refine ⟨hinv, ?_, ?_⟩
      · intro hok
        exact absurd hok (by simp)
      · intro _ hok
        exact absurd hok (by simp)
  · have hlt : st.current_window_pane_count < st.max_panes_per_window :=
      Nat.not_le.mp hcap
    have he := ensure_of_lt st srv plan.newWindow1 hlt
    have hr : (ensure_window_available st srv plan.newWindow1).raised = false := by rw [he]
    have hwN : (ensure_window_available st srv plan.newWindow1).st.current_window =
        some w := by rw [he]; exact hw
    have hcnt : (ensure_window_available st srv
        plan.newWindow1).st.current_window_pane_count = st.current_window_pane_count := by
      rw [he]
    have hmax : (ensure_window_available st srv
        plan.newWindow1).st.max_panes_per_window = st.max_panes_per_window := by rw [he]
    rw [pane_phase_char st srv plan h c w hr hwN]
    obtain ⟨hfT, hfF⟩ := phase_core (ensure_window_available st srv plan.newWindow1).st
      (ensure_window_available st srv plan.newWindow1).srv plan w h c
      (by rw [hcnt, hmax]; exact hlt)
    refine ⟨?_, ?_, ?_⟩
    · show (finish_pane (acquire_pane (ensure_window_available st srv plan.newWindow1).st
          (ensure_window_available st srv plan.newWindow1).srv plan w) plan
            h c).st.current_window_pane_count ≤ st.max_panes_per_window
      cases hok : (finish_pane (acquire_pane
          (ensure_window_available st srv plan.newWindow1).st
          (ensure_window_available st srv plan.newWindow1).srv plan w) plan h c).ok
      · rw [hfF hok, hcnt]
        exact hinv
      · rw [(hfT hok).1, hcnt]
        exact Nat.succ_le_of_lt hlt
    · intro hok
      show (finish_pane (acquire_pane (ensure_window_available st srv plan.newWindow1).st
          (ensure_window_available st srv plan.newWindow1).srv plan w) plan
            h c).st.current_window_pane_count =
        (if st.max_panes_per_window ≤ st.current_window_pane_count then 0
         else st.current_window_pane_count) + 1
      rw [(hfT hok).1, hcnt, if_neg hcap]
    · intro hcontra
      exact absurd hcontra hcap

/-- Witness for the amended C4 at a concrete input: a window at capacity
5/5, all driver calls succeed; the placement opens a new window and the
count becomes 1. -/
theorem c4_witness :
    (create_pane stFullWin srvBase planOk ("h") none).st.current_window_pane_count ≤
      stFullWin.max_panes_per_window ∧
    ((create_pane stFullWin srvBase planOk ("h") none).ok = true →
      (create_pane stFullWin srvBase planOk ("h") none).st.current_window_pane_count =
        (if stFullWin.max_panes_per_window ≤ stFullWin.current_window_pane_count then 0
         else stFullWin.current_window_pane_count) + 1) ∧
    (stFullWin.max_panes_per_window ≤ stFullWin.current_window_pane_count →
      planOk.newWindow1 = CallRes.ok →
      DriverCmd.newWindow (("sshplex-") ++ toString stFullWin.windows.length)
        ∈ (create_pane stFullWin srvBase planOk ("h") none).trace ∧
      (create_pane stFullWin srvBase planOk ("h") none).st.current_window =
        some srvBase.fresh) :=
  c4_capacity_invariant stFullWin srvBase planOk ("h") none 0 1 rfl rfl (by decide)
    (by decide) (by decide)

lemma create_session_of_mem (st : TmuxState) (srv : Server) (p : SessionPlan) (s : Nat)
    (hd : dictGet srv.sessions st.session_name = some s) :
    create_session st srv p =
      create_session_finish st srv s
        [DriverCmd.hasSession st.session_name, DriverCmd.getSession st.session_name] := by
  unfold create_session
  rw [hd]

lemma create_session_of_new (st : TmuxState) (srv : Server) (p : SessionPlan)
    (hd : dictGet srv.sessions st.session_name = none)
    (hp : p.newSessionOk = true) :
    create_session st srv p =
      create_session_finish st (srv.newSessionEffect st.session_name).2
        (srv.newSessionEffect st.session_name).1
        [DriverCmd.hasSession st.session_name, DriverCmd.newSession st.session_name] := by
  unfold create_session
  rw [hd]
  simp [hp]

lemma create_session_finish_trace (st : TmuxState) (srv : Server) (s : Nat)
    (tr : List DriverCmd) :
    (create_session_finish st srv s tr).trace = tr ++ [DriverCmd.attachedWindow s] := by
  unfold create_session_finish
  rcases h : dictGet srv.attachedOf s with _ | w <;> simp [h]

lemma create_session_finish_fields (st : TmuxState) (srv : Server) (s : Nat)
    (tr : List DriverCmd) :
    (create_session_finish st srv s tr).ok = true ∧
    (create_session_finish st srv s tr).srv = srv ∧
    (create_session_finish st srv s tr).st.session = some s ∧
    (create_session_finish st srv s tr).st.session_name = st.session_name := by
  unfold create_session_finish
  rcases h : dictGet srv.attachedOf s with _ | w <;> simp [h]

lemma create_session_trace_setup (st : TmuxState) (srv : Server) (p : SessionPlan) :
    ∀ e ∈ (create_session st srv p).trace, DriverCmd.isSetup e = true := by
  intro e he
  unfold create_session at he
  rcases hd : dictGet srv.sessions st.session_name with _ | s
  · rw [hd] at he
    cases hp : p.newSessionOk
    · simp [hp] at he
      rcases he with rfl | rfl <;> rfl
    · simp [hp, create_session_finish_trace] at he
      rcases he with rfl | rfl | rfl <;> rfl
  · rw [hd] at he
    simp [create_session_finish_trace] at he
    rcases he with rfl | rfl | rfl <;> rfl

lemma ensure_trace_setup (st : TmuxState) (srv : Server) (nw : CallRes) :
    ∀ e ∈ (ensure_window_available st srv nw).trace, DriverCmd.isSetup e = true := by
  intro e he
  by_cases hcap : st.max_panes_per_window ≤ st.current_window_pane_count
  · rcases hs : st.session with _ | sid
    · simp [ensure_window_available, hcap, hs] at he
    · cases nw <;> simp [ensure_window_available, hcap, hs] at he <;>
        subst he <;> rfl
  · simp [ensure_window_available, hcap] at he

lemma fallback_trace_shape (st : TmuxState) (srv : Server) (plan : PanePlan)
    (tr : List DriverCmd) :
    (fallback_new_window st srv plan tr).trace =
        tr ++ (ensure_window_available st srv plan.newWindow2).trace ∨
    ∃ w2, (fallback_new_window st srv plan tr).trace =
        tr ++ (ensure_window_available st srv plan.newWindow2).trace ++
          [DriverCmd.splitWindow w2 true] := by
  cases hr : (ensure_window_available st srv plan.newWindow2).raised
  · rcases hw : (ensure_window_available st srv plan.newWindow2).st.current_window with _ | w2
    · left
      simp [fallback_new_window, hr, hw]
    · cases hs3 : plan.split3
      · right
        exact ⟨w2, by simp [fallback_new_window, hr, hw, hs3]⟩
      · right
        exact ⟨w2, by simp [fallback_new_window, hr, hw, hs3]⟩
      · right
        exact ⟨w2, by simp [fallback_new_window, hr, hw, hs3]⟩
  · left
    simp [fallback_new_window, hr]

lemma fallback_trace_setup (st : TmuxState) (srv : Server) (plan : PanePlan)
    (tr : List DriverCmd) (htr : ∀ e ∈ tr, DriverCmd.isSetup e = true) :
    ∀ e ∈ (fallback_new_window st srv plan tr).trace, DriverCmd.isSetup e = true := by
  intro e he
  have hens := ensure_trace_setup st srv plan.newWindow2
  rcases fallback_trace_shape st srv plan tr with hT | ⟨w2, hT⟩
  · rw [hT] at he
    rcases List.mem_append.mp he with he | he
    · exact htr e he
    · exact hens e he
  · rw [hT] at he
    rcases List.mem_append.mp he with he | he
    · rcases List.mem_append.mp he with he | he
      · exact htr e he
      · exact hens e he
    · rw [List.mem_singleton] at he
      subst he
      rfl

lemma acquire_trace_setup (st : TmuxState) (srv : Server) (plan : PanePlan) (w : Nat) :
    ∀ e ∈ (acquire_pane st srv plan w).trace, DriverCmd.isSetup e = true := by
  intro e he
  cases hb : (st.current_window_pane_count == 0)
  · cases hs1 : plan.split1
    · have hT : (acquire_pane st srv plan w).trace =
          [DriverCmd.splitWindow w (st.current_window_pane_count % 2 == 0)] := by
        simp [acquire_pane, hb, hs1]
      rw [hT, List.mem_singleton] at he
      subst he; rfl
    · have hT : (acquire_pane st srv plan w).trace =
          [DriverCmd.splitWindow w (st.current_window_pane_count % 2 == 0)] := by
        simp [acquire_pane, hb, hs1]
      rw [hT, List.mem_singleton] at he
      subst he; rfl
    · cases hrz : plan.resizeOk
      · have hT : acquire_pane st srv plan w =
            fallback_new_window st srv plan
              [DriverCmd.splitWindow w (st.current_window_pane_count % 2 == 0),
               DriverCmd.resizeWindow w 80 200] := by
          simp [acquire_pane, hb, hs1, hrz]
        rw [hT] at he
        refine fallback_trace_setup st srv plan _ ?_ e he
        intro x hx
        fin_cases hx <;> rfl
      · cases hs2 : plan.split2
        · have hT : (acquire_pane st srv plan w).trace =
              [DriverCmd.splitWindow w (st.current_window_pane_count % 2 == 0),
               DriverCmd.resizeWindow w 80 200,
               DriverCmd.splitWindow w (st.current_window_pane_count % 2 == 0)] := by
            simp [acquire_pane, hb, hs1, hrz, hs2]
          rw [hT] at he
          fin_cases he <;> rfl
        · have hT : (acquire_pane st srv plan w).trace =
              [DriverCmd.splitWindow w (st.current_window_pane_count % 2 == 0),
               DriverCmd.resizeWindow w 80 200,
               DriverCmd.splitWindow w (st.current_window_pane_count % 2 == 0)] := by
            simp [acquire_pane, hb, hs1, hrz, hs2]
          rw [hT] at he
          fin_cases he <;> rfl
        · have hT : acquire_pane st srv plan w =
              fallback_new_window st srv plan
                [DriverCmd.splitWindow w (st.current_window_pane_count % 2 == 0),
                 DriverCmd.resizeWindow w 80 200,
                 DriverCmd.splitWindow w (st.current_window_pane_count % 2 == 0)] := by
            simp [acquire_pane, hb, hs1, hrz, hs2]
          rw [hT] at he
          refine fallback_trace_setup st srv plan _ ?_ e he
          intro x hx
          fin_cases hx <;> rfl
  · have hT : (acquire_pane st srv plan w).trace = [DriverCmd.attachedPane w] := by
      simp [acquire_pane, hb]
    rw [hT, List.mem_singleton] at he
    subst he; rfl

lemma finish_ok_trace (sp : SplitOut) (plan : PanePlan) (h : String) (c : Option String)
    (hok : (finish_pane sp plan h c).ok = true) :
    ∃ p wL,
      (finish_pane sp plan h c).trace =
        sp.trace ++ [DriverCmd.selectLayout wL ("tiled"),
                     DriverCmd.sendKeys p (paneTitleText h)]
                 ++ cmdTrace p c := by
  rcases hp : sp.pane with _ | p
  · simp [finish_pane, hp] at hok
  · rcases hw : sp.st.current_window with _ | wL
    · simp [finish_pane, hp, hw] at hok
    · cases hl : plan.layoutOk
      · simp [finish_pane, hp, hw, hl] at hok
      · refine ⟨p, wL, ?_⟩
        cases c <;>
          simp [finish_pane, hp, hw, hl, set_pane_title, send_command,
            dictGet_dictSet_self, cmdTrace]

lemma with_session_ok (i : StepResult) (plan : PanePlan) (h : String) (c : Option String)
    (hok : (with_session i plan h c).ok = true) :
    i.ok = true ∧ (pane_phase i.st i.srv plan h c).ok = true ∧
    (with_session i plan h c).trace = i.trace ++ (pane_phase i.st i.srv plan h c).trace := by
  cases hi : i.ok
  · have hbad : (with_session i plan h c).ok = false := by
      simp [with_session, hi]
    rw [hbad] at hok
    exact absurd hok (by simp)
  · have heq : with_session i plan h c =
      ⟨(pane_phase i.st i.srv plan h c).ok, (pane_phase i.st i.srv plan h c).st,
       (pane_phase i.st i.srv plan h c).srv,
       i.trace ++ (pane_phase i.st i.srv plan h c).trace⟩ := by
      simp [with_session, hi]
    rw [heq] at hok
    exact ⟨rfl, hok, by rw [heq]⟩

lemma pane_phase_ok_trace (st : TmuxState) (srv : Server) (plan : PanePlan)
    (h : String) (c : Option String)
    (hok : (pane_phase st srv plan h c).ok = true) :
    ∃ pre wL p, (∀ e ∈ pre, DriverCmd.isSetup e = true) ∧
      (pane_phase st srv plan h c).trace =
        pre ++ [DriverCmd.selectLayout wL ("tiled"),
                DriverCmd.sendKeys p (paneTitleText h)]
            ++ cmdTrace p c := by
  cases hr : (ensure_window_available st srv plan.newWindow1).raised
  · rcases hw : (ensure_window_available st srv plan.newWindow1).st.current_window with _ | w
    · rw [pane_phase] at hok
      simp only [hr, Bool.false_eq_true, if_false, if_neg, hw] at hok
    · rw [pane_phase_char st srv plan h c w hr hw] at hok ⊢
      obtain ⟨p, wL, htrF⟩ := finish_ok_trace
        (acquire_pane (ensure_window_available st srv plan.newWindow1).st
          (ensure_window_available st srv plan.newWindow1).srv plan w) plan h c hok
      refine ⟨(ensure_window_available st srv plan.newWindow1).trace ++
        (acquire_pane (ensure_window_available st srv plan.newWindow1).st
          (ensure_window_available st srv plan.newWindow1).srv plan w).trace, wL, p, ?_, ?_⟩
      · intro e he
        rcases List.mem_append.mp he with he | he
        · exact ensure_trace_setup st srv plan.newWindow1 e he
        · exact acquire_trace_setup _ _ plan w e he
      · show (ensure_window_available st srv plan.newWindow1).trace ++
          (finish_pane (acquire_pane (ensure_window_available st srv plan.newWindow1).st
            (ensure_window_available st srv plan.newWindow1).srv plan w) plan h c).trace = _
        rw [htrF]
        simp [List.append_assoc]
  · rw [pane_phase_raised st srv plan h c hr] at hok
    exact absurd hok (by simp)

/-- Counterexample to C5 as stated: on a concrete successful placement
with a supplied command, the layout-normalize command is issued
immediately after the split, before the title-set and command-dispatch
commands — the last emitted command is the command-dispatch, not the
layout-normalize. -/
theorem c5_order_counterexample :
    (create_pane stOneWin srvBase planOk ("h5") (some ("ssh h5"))).ok = true ∧
    (create_pane stOneWin srvBase planOk ("h5") (some ("ssh h5"))).trace =
      [DriverCmd.splitWindow 1 false, DriverCmd.selectLayout 1 ("tiled"),
       DriverCmd.sendKeys 100 (paneTitleText ("h5")), DriverCmd.sendKeys 100 ("ssh h5")] ∧
    (create_pane stOneWin srvBase planOk ("h5") (some ("ssh h5"))).trace.getLast? =
      some (DriverCmd.sendKeys 100 ("ssh h5")) ∧
    (create_pane stOneWin srvBase planOk ("h5") (some ("ssh h5"))).trace ≠
      [DriverCmd.splitWindow 1 false, DriverCmd.sendKeys 100 (paneTitleText ("h5")),
       DriverCmd.sendKeys 100 ("ssh h5"), DriverCmd.selectLayout 1 ("tiled")] := by
  refine ⟨rfl, rfl, rfl, ?_⟩
  decide

/-- C5 (amended): every successful placement emits its driver commands in
the order: pane-acquisition commands (session bootstrap, window creation,
splits, resizes, attached-pane reuse) first, then the layout-normalize
command, then the title-set keystroke, and last (when a command string was
supplied) the command-dispatch keystroke. The layout-normalize command
precedes the title-set, it is not last. -/
theorem c5_command_order (st : TmuxState) (srv : Server) (plan : PanePlan)
    (h : String) (c : Option String)
    (hok : (create_pane st srv plan h c).ok = true) :
    ∃ pre wL p,
      (∀ e ∈ pre, DriverCmd.isSetup e = true) ∧
      (create_pane st srv plan h c).trace =
        pre ++ [DriverCmd.selectLayout wL ("tiled"),
                DriverCmd.sendKeys p (paneTitleText h)]
            ++ cmdTrace p c := by
  unfold create_pane at hok ⊢
  obtain ⟨hiok, hpok, htr⟩ := with_session_ok _ plan h c hok
  rw [htr]
  obtain ⟨pre2, wL, p, hpre2, htr2⟩ := pane_phase_ok_trace _ _ plan h c hpok
  refine ⟨(if st.session.isNone || st.current_window.isNone then
      create_session st srv plan.sessionPlan
    else ⟨true, st, srv, []⟩).trace ++ pre2, wL, p, ?_, ?_⟩
  · intro e he
    rcases List.mem_append.mp he with he | he
    · by_cases hc : (st.session.isNone || st.current_window.isNone) = true
      · rw [if_pos hc] at he
        exact create_session_trace_setup st srv plan.sessionPlan e he
      · rw [if_neg hc] at he
        exact absurd he (List.not_mem_nil e)
    · exact hpre2 e he
  · rw [htr2]
    simp [List.append_assoc]

/-- Witness for the amended C5 at a concrete input: a successful placement
with a command string. -/
theorem c5_witness :
    ∃ pre wL p,
      (∀ e ∈ pre, DriverCmd.isSetup e = true) ∧
      (create_pane stOneWin srvBase planOk ("h5") (some ("ssh h5"))).trace =
        pre ++ [DriverCmd.selectLayout wL ("tiled"),
                DriverCmd.sendKeys p (paneTitleText ("h5"))]
            ++ cmdTrace p (some ("ssh h5")) :=
  c5_command_order stOneWin srvBase planOk ("h5") (some ("ssh h5")) rfl

lemma fallback_trace_pre (st : TmuxState) (srv : Server) (plan : PanePlan)
    (tr : List DriverCmd) :
    ∃ u, (fallback_new_window st srv plan tr).trace = tr ++ u := by
  rcases fallback_trace_shape st srv plan tr with hT | ⟨w2, hT⟩
  · exact ⟨(ensure_window_available st srv plan.newWindow2).trace, hT⟩
  · refine ⟨(ensure_window_available st srv plan.newWindow2).trace ++
      [DriverCmd.splitWindow w2 true], ?_⟩
    rw [hT, List.append_assoc]

lemma acquire_trace_head (st : TmuxState) (srv : Server) (plan : PanePlan) (w : Nat) :
    ∃ t, (acquire_pane st srv plan w).trace =
      (if (st.current_window_pane_count == 0) = true then DriverCmd.attachedPane w
       else DriverCmd.splitWindow w (st.current_window_pane_count % 2 == 0)) :: t := by
  cases hb : (st.current_window_pane_count == 0)
  · cases hs1 : plan.split1
    · exact ⟨[], by simp [acquire_pane, hb, hs1]⟩
    · exact ⟨[], by simp [acquire_pane, hb, hs1]⟩
    · cases hrz : plan.resizeOk
      · obtain ⟨u, hu⟩ := fallback_trace_pre st srv plan
          [DriverCmd.splitWindow w (st.current_window_pane_count % 2 == 0),
           DriverCmd.resizeWindow w 80 200]
        have hT : acquire_pane st srv plan w =
            fallback_new_window st srv plan
              [DriverCmd.splitWindow w (st.current_window_pane_count % 2 == 0),
               DriverCmd.resizeWindow w 80 200] := by
          simp [acquire_pane, hb, hs1, hrz]
        refine ⟨DriverCmd.resizeWindow w 80 200 :: u, ?_⟩
        rw [hT, hu]
        simp [hb]
      · cases hs2 : plan.split2
        · refine ⟨[DriverCmd.resizeWindow w 80 200,
            DriverCmd.splitWindow w (st.current_window_pane_count % 2 == 0)], ?_⟩
          simp [acquire_pane, hb, hs1, hrz, hs2]
        · refine ⟨[DriverCmd.resizeWindow w 80 200,
            DriverCmd.splitWindow w (st.current_window_pane_count % 2 == 0)], ?_⟩
          simp [acquire_pane, hb, hs1, hrz, hs2]
        · obtain ⟨u, hu⟩ := fallback_trace_pre st srv plan
            ([DriverCmd.splitWindow w (st.current_window_pane_count % 2 == 0),
              DriverCmd.resizeWindow w 80 200] ++
             [DriverCmd.splitWindow w (st.current_window_pane_count % 2 == 0)])
          have hT : acquire_pane st srv plan w =
              fallback_new_window st srv plan
                ([DriverCmd.splitWindow w (st.current_window_pane_count % 2 == 0),
                  DriverCmd.resizeWindow w 80 200] ++
                 [DriverCmd.splitWindow w (st.current_window_pane_count % 2 == 0)]) := by
            simp [acquire_pane, hb, hs1, hrz, hs2]
          refine ⟨DriverCmd.resizeWindow w 80 200 ::
            DriverCmd.splitWindow w (st.current_window_pane_count % 2 == 0) :: u, ?_⟩
          rw [hT, hu]
          simp [hb]
  · exact ⟨[], by simp [acquire_pane, hb]⟩

lemma finish_trace_pre (sp : SplitOut) (plan : PanePlan) (h : String) (c : Option String) :
    ∃ u, (finish_pane sp plan h c).trace = sp.trace ++ u := by
  rcases hp : sp.pane with _ | p
  · exact ⟨[], by simp [finish_pane, hp]⟩
  · rcases hw : sp.st.current_window with _ | wL
    · exact ⟨[], by simp [finish_pane, hp, hw]⟩
    · cases hl : plan.layoutOk
      · exact ⟨[DriverCmd.selectLayout wL ("tiled")],
          by simp [finish_pane, hp, hw, hl]⟩
      · refine ⟨[DriverCmd.selectLayout wL ("tiled"),
          DriverCmd.sendKeys p (paneTitleText h)] ++ cmdTrace p c, ?_⟩
        cases c <;>
          simp [finish_pane, hp, hw, hl, set_pane_title, send_command,
            dictGet_dictSet_self, cmdTrace]

/-- C6: in every placement that gets past the capacity step (the
ensure-window step did not raise), the pane-creation phase starts with an
attached-pane reuse (no split) exactly when the target window's tracked
pane count is 0, and otherwise with a split of the target window whose
orientation is vertical iff that count is even. -/
theorem c6_first_pane_parity (st : TmuxState) (srv : Server) (plan : PanePlan)
    (h : String) (c : Option String) (sid w : Nat)
    (hs : st.session = some sid) (hw : st.current_window = some w)
    (hr : (ensure_window_available st srv plan.newWindow1).raised = false) :
    ∃ w1 rest,
      (ensure_window_available st srv plan.newWindow1).st.current_window = some w1 ∧
      (create_pane st srv plan h c).trace =
        (ensure_window_available st srv plan.newWindow1).trace ++ rest ∧
      rest.head? = some
        (if ((ensure_window_available st srv
                plan.newWindow1).st.current_window_pane_count == 0) = true
         then DriverCmd.attachedPane w1
         else DriverCmd.splitWindow w1
           ((ensure_window_available st srv
               plan.newWindow1).st.current_window_pane_count % 2 == 0)) := by
  obtain ⟨w1, hw1⟩ := ensure_window_some st srv plan.newWindow1 w hw
  rw [create_pane_of_session st srv plan h c sid w hs hw]
  rw [pane_phase_char st srv plan h c w1 hr hw1]
  obtain ⟨t, ht⟩ := acquire_trace_head (ensure_window_available st srv plan.newWindow1).st
    (ensure_window_available st srv plan.newWindow1).srv plan w1
  obtain ⟨u, hu⟩ := finish_trace_pre
    (acquire_pane (ensure_window_available st srv plan.newWindow1).st
      (ensure_window_available st srv plan.newWindow1).srv plan w1) plan h c
  refine ⟨w1, (acquire_pane (ensure_window_available st srv plan.newWindow1).st
    (ensure_window_available st srv plan.newWindow1).srv plan w1).trace ++ u, hw1, ?_, ?_⟩
  · show (ensure_window_available st srv plan.newWindow1).trace ++
      (finish_pane (acquire_pane (ensure_window_available st srv plan.newWindow1).st
        (ensure_window_available st srv plan.newWindow1).srv plan w1) plan h c).trace = _
    rw [hu]
  · rw [ht]
    simp

/-- Witness for C6 at a concrete input: one pane already in the window, so
the next placement's first command is a horizontal split (count 1 is
odd). -/
theorem c6_witness :
    ∃ w1 rest,
      (ensure_window_available stOneWin srvBase planOk.newWindow1).st.current_window =
        some w1 ∧
      (create_pane stOneWin srvBase planOk ("h") none).trace =
        (ensure_window_available stOneWin srvBase planOk.newWindow1).trace ++ rest ∧
      rest.head? = some
        (if ((ensure_window_available stOneWin srvBase
                planOk.newWindow1).st.current_window_pane_count == 0) = true
         then DriverCmd.attachedPane w1
         else DriverCmd.splitWindow w1
           ((ensure_window_available stOneWin srvBase
               planOk.newWindow1).st.current_window_pane_count % 2 == 0)) :=
  c6_first_pane_parity stOneWin srvBase planOk ("h") none 0 1 rfl rfl rfl

/-- C7: if a first create_session call succeeded, a second call without an
intervening close succeeds, returns the same session identity, performs no
driver mutation (its whole trace is queries), and leaves the server
unchanged. -/
theorem c7_create_session_idempotent (st : TmuxState) (srv : Server)
    (p1 p2 : SessionPlan)
    (hok : (create_session st srv p1).ok = true) :
    (create_session (create_session st srv p1).st (create_session st srv p1).srv p2).ok
      = true ∧
    (create_session (create_session st srv p1).st
        (create_session st srv p1).srv p2).st.session
      = (create_session st srv p1).st.session ∧
    (create_session (create_session st srv p1).st (create_session st srv p1).srv p2).srv
      = (create_session st srv p1).srv ∧
    ∀ e ∈ (create_session (create_session st srv p1).st
        (create_session st srv p1).srv p2).trace,
      DriverCmd.isMutation e = false := by
  rcases hd : dictGet srv.sessions st.session_name with _ | s
  · cases hp : p1.newSessionOk
    · have hbad : (create_session st srv p1).ok = false := by
        simp [create_session, hd, hp]
      rw [hbad] at hok
      exact absurd hok (by simp)
    · have h1 := create_session_of_new st srv p1 hd hp
      obtain ⟨f_ok, f_srv, f_sess, f_name⟩ := create_session_finish_fields st
        (srv.newSessionEffect st.session_name).2 (srv.newSessionEffect st.session_name).1
        [DriverCmd.hasSession st.session_name, DriverCmd.newSession st.session_name]
      have hd2 : dictGet (create_session st srv p1).srv.sessions
          (create_session st srv p1).st.session_name =
          some (srv.newSessionEffect st.session_name).1 := by
        rw [h1, f_srv, f_name]
        exact dictGet_dictSet_self srv.sessions st.session_name srv.fresh
      have h2 := create_session_of_mem (create_session st srv p1).st
        (create_session st srv p1).srv p2 (srv.newSessionEffect st.session_name).1 hd2
      obtain ⟨g_ok, g_srv, g_sess, g_name⟩ := create_session_finish_fields
        (create_session st srv p1).st (create_session st srv p1).srv
        (srv.newSessionEffect st.session_name).1
        [DriverCmd.hasSession (create_session st srv p1).st.session_name,
         DriverCmd.getSession (create_session st srv p1).st.session_name]
      refine ⟨by rw [h2]; exact g_ok, ?_, by rw [h2]; exact g_srv, ?_⟩
      · rw [h2, g_sess]
        rw [h1, f_sess]
      · intro e he
        rw [h2, create_session_finish_trace] at he
        fin_cases he <;> rfl
  · have h1 := create_session_of_mem st srv p1 s hd
    obtain ⟨f_ok, f_srv, f_sess, f_name⟩ := create_session_finish_fields st srv s
      [DriverCmd.hasSession st.session_name, DriverCmd.getSession st.session_name]
    have hd2 : dictGet (create_session st srv p1).srv.sessions
        (create_session st srv p1).st.session_name = some s := by
      rw [h1, f_srv, f_name]
      exact hd
    have h2 := create_session_of_mem (create_session st srv p1).st
      (create_session st srv p1).srv p2 s hd2
    obtain ⟨g_ok, g_srv, g_sess, g_name⟩ := create_session_finish_fields
      (create_session st srv p1).st (create_session st srv p1).srv s
      [DriverCmd.hasSession (create_session st srv p1).st.session_name,
       DriverCmd.getSession (create_session st srv p1).st.session_name]
    refine ⟨by rw [h2]; exact g_ok, ?_, by rw [h2]; exact g_srv, ?_⟩
    · rw [h2, g_sess]
      rw [h1, f_sess]
    · intro e he
      rw [h2, create_session_finish_trace] at he
      fin_cases he <;> rfl

/-- Witness for C7 at a concrete input: a fresh server; the first call
creates the session, the second only queries. -/
theorem c7_witness :
    (create_session (create_session stNoSession srv0 ⟨true⟩).st
        (create_session stNoSession srv0 ⟨true⟩).srv ⟨true⟩).ok = true ∧
    (create_session (create_session stNoSession srv0 ⟨true⟩).st
        (create_session stNoSession srv0 ⟨true⟩).srv ⟨true⟩).st.session
      = (create_session stNoSession srv0 ⟨true⟩).st.session ∧
    (create_session (create_session stNoSession srv0 ⟨true⟩).st
        (create_session stNoSession srv0 ⟨true⟩).srv ⟨true⟩).srv
      = (create_session stNoSession srv0 ⟨true⟩).srv ∧
    ∀ e ∈ (create_session (create_session stNoSession srv0 ⟨true⟩).st
        (create_session stNoSession srv0 ⟨true⟩).srv ⟨true⟩).trace,
      DriverCmd.isMutation e = false :=
  c7_create_session_idempotent stNoSession srv0 ⟨true⟩ ⟨true⟩ rfl

lemma enableLoop_no_multi (srv : Server) (l : List (Nat × Nat))
    (h : ∀ p ∈ l, winPaneCount srv p.2 ≤ 1) :
    enableLoop srv l = (false, srv, []) := by
  induction l with
  | nil => rfl
  | cons hd tl ih =>
      rcases hd with ⟨i, w⟩
      have hc : ¬ (1 < winPaneCount srv w) :=
        Nat.not_lt.mpr (h (i, w) (List.mem_cons_self _ _))
      have htl := ih (fun p hp => h p (List.mem_cons_of_mem _ hp))
      simp [enableLoop, hc, htl]

lemma firstMultiPane_none (srv : Server) (l : List (Nat × Nat))
    (h : ∀ p ∈ l, winPaneCount srv p.2 ≤ 1) :
    firstMultiPane srv l = none := by
  induction l with
  | nil => rfl
  | cons hd tl ih =>
      rcases hd with ⟨i, w⟩
      have hc : ¬ (1 < winPaneCount srv w) :=
        Nat.not_lt.mpr (h (i, w) (List.mem_cons_self _ _))
      have htl := ih (fun p hp => h p (List.mem_cons_of_mem _ hp))
      simp [firstMultiPane, hc, htl]

lemma disableLoop_flag (srv : Server) (l : List (Nat × Nat)) :
    (disableLoop srv l).1 = !l.isEmpty := by
  cases l with
  | nil => rfl
  | cons hd tl =>
      rcases hd with ⟨i, w⟩
      simp [disableLoop]

/-- Counterexample to C8 as stated: a session whose only window has a
single pane (zero multi-pane windows); disable_broadcast still issues the
option command to that window and returns true, where the claim requires
all three operations to return false affecting no window. -/
theorem c8_disable_counterexample :
    winPaneCount srvSingle 1 = 1 ∧
    (disable_broadcast stOneWin srvSingle).1 = true ∧
    (disable_broadcast stOneWin srvSingle).2.2 =
      [DriverCmd.setWindowOption 1 ("synchronize-panes") ("off")] ∧
    (enable_broadcast stOneWin srvSingle).1 = false :=
  ⟨rfl, rfl, rfl, rfl⟩

/-- C8 (amended): enable and toggle qualify windows by live pane count
greater than one, and with zero multi-pane windows both return false,
touch no window, and leave the server unchanged; disable however sets the
option off on every registered window regardless of pane count, so it
returns true exactly when a session exists and at least one window is
registered. -/
theorem c8_broadcast_no_multipane (st : TmuxState) (srv : Server)
    (hq : ∀ p ∈ st.windows, winPaneCount srv p.2 ≤ 1) :
    enable_broadcast st srv = (false, srv, []) ∧
    toggle_broadcast st srv = (false, srv, []) ∧
    (disable_broadcast st srv).1 = (st.session.isSome && !st.windows.isEmpty) := by
  rcases hs : st.session with _ | sid
  · refine ⟨by simp [enable_broadcast, hs], by simp [toggle_broadcast, hs], ?_⟩
    simp [disable_broadcast, hs]
  · have hE := enableLoop_no_multi srv st.windows hq
    have hF := firstMultiPane_none srv st.windows hq
    refine ⟨?_, ?_, ?_⟩
    · simp [enable_broadcast, hs, hE]
    · simp [toggle_broadcast, hs, hF, enable_broadcast, hE]
    · simp [disable_broadcast, hs, disableLoop_flag]

/-- Witness for the amended C8 at a concrete input: one registered
single-pane window; enable and toggle no-op returning false, disable
returns true. -/
theorem c8_witness :
    enable_broadcast stOneWin srvSingle = (false, srvSingle, []) ∧
    toggle_broadcast stOneWin srvSingle = (false, srvSingle, []) ∧
    (disable_broadcast stOneWin srvSingle).1 =
      (stOneWin.session.isSome && !stOneWin.windows.isEmpty) :=
  c8_broadcast_no_multipane stOneWin srvSingle (by decide)

/-- C9: whenever some registered window has more than one live pane,
toggle_broadcast queries exactly the first such window in iteration order
and inverts that single sample: if its synchronize-panes option is on it
runs the disable operation, otherwise the enable operation, regardless of
the state of every other window. -/
theorem c9_toggle_first_sample (st : TmuxState) (srv : Server) (sid w : Nat)
    (hs : st.session = some sid)
    (hfm : firstMultiPane srv st.windows = some w) :
    toggle_broadcast st srv =
      (if (dictGet srv.winSync w).getD false then
        ((disable_broadcast st srv).1, (disable_broadcast st srv).2.1,
         DriverCmd.showWindowOption w ("synchronize-panes") ::
           (disable_broadcast st srv).2.2)
       else
        ((enable_broadcast st srv).1, (enable_broadcast st srv).2.1,
         DriverCmd.showWindowOption w ("synchronize-panes") ::
           (enable_broadcast st srv).2.2)) := by
  cases hb : (dictGet srv.winSync w).getD false
  · simp [toggle_broadcast, hs, hfm, hb]
  · simp [toggle_broadcast, hs, hfm, hb]

/-- Witness for C9 at a concrete mixed-state input: window 1 (2 panes,
sync on) and window 2 (3 panes, sync off); the toggle samples window 1
only and takes the disable path. -/
theorem c9_witness :
    toggle_broadcast stTwoWin srvMixed =
      (if (dictGet srvMixed.winSync 1).getD false then
        ((disable_broadcast stTwoWin srvMixed).1, (disable_broadcast stTwoWin srvMixed).2.1,
         DriverCmd.showWindowOption 1 ("synchronize-panes") ::
           (disable_broadcast stTwoWin srvMixed).2.2)
       else
        ((enable_broadcast stTwoWin srvMixed).1, (enable_broadcast stTwoWin srvMixed).2.1,
         DriverCmd.showWindowOption 1 ("synchronize-panes") ::
           (enable_broadcast stTwoWin srvMixed).2.2)) :=
  c9_toggle_first_sample stTwoWin srvMixed 0 1 rfl rfl

lemma optionTargets_enableLoop (srv : Server) (l : List (Nat × Nat)) (hw : Nat)
    (h : ∀ p ∈ l, p.2 ≠ hw) :
    hw ∉ optionTargets (enableLoop srv l).2.2 := by
  induction l generalizing srv with
  | nil => simp [enableLoop, optionTargets]
  | cons hd tl ih =>
      rcases hd with ⟨i, w⟩
      have hne : w ≠ hw := h (i, w) (List.mem_cons_self _ _)
      have htl : ∀ p ∈ tl, p.2 ≠ hw := fun p hp => h p (List.mem_cons_of_mem _ hp)
      by_cases hc : 1 < winPaneCount srv w
      · simp only [enableLoop, hc, if_true]
        simp only [optionTargets, List.mem_cons]
        intro hmem
        rcases hmem with hmem | hmem
        · exact hne hmem.symm
        · exact ih _ htl hmem
      · simp only [enableLoop, hc, if_false]
        exact ih srv htl

lemma optionTargets_disableLoop (srv : Server) (l : List (Nat × Nat)) (hw : Nat)
    (h : ∀ p ∈ l, p.2 ≠ hw) :
    hw ∉ optionTargets (disableLoop srv l).2.2 := by
  induction l generalizing srv with
  | nil => simp [disableLoop, optionTargets]
  | cons hd tl ih =>
      rcases hd with ⟨i, w⟩
      have hne : w ≠ hw := h (i, w) (List.mem_cons_self _ _)
      have htl : ∀ p ∈ tl, p.2 ≠ hw := fun p hp => h p (List.mem_cons_of_mem _ hp)
      simp only [disableLoop, optionTargets, List.mem_cons]
      intro hmem
      rcases hmem with hmem | hmem
      · exact hne hmem.symm
      · exact ih _ htl hmem

lemma enable_targets (st : TmuxState) (srv : Server) (hw : Nat)
    (h : ∀ p ∈ st.windows, p.2 ≠ hw) :
    hw ∉ optionTargets (enable_broadcast st srv).2.2 := by
  rcases hs : st.session with _ | sid
  · simp [enable_broadcast, hs, optionTargets]
  · simp only [enable_broadcast, hs]
    exact optionTargets_enableLoop srv st.windows hw h

lemma disable_targets (st : TmuxState) (srv : Server) (hw : Nat)
    (h : ∀ p ∈ st.windows, p.2 ≠ hw) :
    hw ∉ optionTargets (disable_broadcast st srv).2.2 := by
  rcases hs : st.session with _ | sid
  · simp [disable_broadcast, hs, optionTargets]
  · simp only [disable_broadcast, hs]
    exact optionTargets_disableLoop srv st.windows hw h

lemma toggle_targets (st : TmuxState) (srv : Server) (hw : Nat)
    (h : ∀ p ∈ st.windows, p.2 ≠ hw) :
    hw ∉ optionTargets (toggle_broadcast st srv).2.2 := by
  rcases hs : st.session with _ | sid
  · simp [toggle_broadcast, hs, optionTargets]
  · rcases hfm : firstMultiPane srv st.windows with _ | w0
    · simp only [toggle_broadcast, hs, hfm]
      exact enable_targets st srv hw h
    · cases hb : (dictGet srv.winSync w0).getD false
      · simp only [toggle_broadcast, hs, hfm, hb, Bool.false_eq_true, if_false, if_neg,
          optionTargets]
        exact enable_targets st srv hw h
      · simp only [toggle_broadcast, hs, hfm, hb, if_true, optionTargets]
        exact disable_targets st srv hw h

/-- C10: create_window never registers the created window in the windows
map and leaves the current-window pointer and the tracked pane count
unchanged; consequently the broadcast operations, which iterate only the
registered windows map, never issue a window-option command to any handle
outside that map — in particular not to windows created in window mode. -/
theorem c10_create_window_frame (st : TmuxState) (srv : Server) (plan : WindowPlan)
    (h : String) (c : Option String) :
    (create_window st srv plan h c).st.windows = st.windows ∧
    (create_window st srv plan h c).st.current_window = st.current_window ∧
    (create_window st srv plan h c).st.current_window_pane_count =
      st.current_window_pane_count ∧
    ∀ hw, (∀ p ∈ st.windows, p.2 ≠ hw) →
      hw ∉ optionTargets (enable_broadcast (create_window st srv plan h c).st
        (create_window st srv plan h c).srv).2.2 ∧
      hw ∉ optionTargets (disable_broadcast (create_window st srv plan h c).st
        (create_window st srv plan h c).srv).2.2 ∧
      hw ∉ optionTargets (toggle_broadcast (create_window st srv plan h c).st
        (create_window st srv plan h c).srv).2.2 := by
  have hfr : (create_window st srv plan h c).st.windows = st.windows ∧
      (create_window st srv plan h c).st.current_window = st.current_window ∧
      (create_window st srv plan h c).st.current_window_pane_count =
        st.current_window_pane_count := by
    rcases hs : st.session with _ | sid
    · simp [create_window, hs]
    · cases hnw : plan.newWindow
      · cases hpf : plan.paneFound <;> simp [create_window, hs, hnw, hpf]
      · simp [create_window, hs, hnw]
      · simp [create_window, hs, hnw]
  refine ⟨hfr.1, hfr.2.1, hfr.2.2, ?_⟩
  intro hw hns
  have hns' : ∀ p ∈ (create_window st srv plan h c).st.windows, p.2 ≠ hw := by
    rw [hfr.1]
    exact hns
  exact ⟨enable_targets _ _ hw hns', disable_targets _ _ hw hns',
    toggle_targets _ _ hw hns'⟩

/-- Witness for C10 at a concrete input: the window created for host "hw"
receives the fresh handle 100, which never appears among the broadcast
option targets. -/
theorem c10_witness :
    (create_window stOneWin srvBase wplanOk ("hw") none).st.windows = stOneWin.windows ∧
    (create_window stOneWin srvBase wplanOk ("hw") none).st.current_window =
      stOneWin.current_window ∧
    (create_window stOneWin srvBase wplanOk ("hw") none).st.current_window_pane_count =
      stOneWin.current_window_pane_count ∧
    (100 ∉ optionTargets (enable_broadcast
        (create_window stOneWin srvBase wplanOk ("hw") none).st
        (create_window stOneWin srvBase wplanOk ("hw") none).srv).2.2 ∧
     100 ∉ optionTargets (disable_broadcast
        (create_window stOneWin srvBase wplanOk ("hw") none).st
        (create_window stOneWin srvBase wplanOk ("hw") none).srv).2.2 ∧
     100 ∉ optionTargets (toggle_broadcast
        (create_window stOneWin srvBase wplanOk ("hw") none).st
        (create_window stOneWin srvBase wplanOk ("hw") none).srv).2.2) := by
  have hm := c10_create_window_frame stOneWin srvBase wplanOk ("hw") none
  exact ⟨hm.1, hm.2.1, hm.2.2.1, hm.2.2.2 100 (by decide)⟩

end SSHplex
